import Mathlib

/-!
Verification of the stocktrendllm repository.

Shallow embedding of the repository sources:
  - `config.py`                    → `Config`, `configFromEnv`
  - `src/utils/helpers.py`         → `create_sample_data` (via `createSampleData`),
                                     `format_analysis_output`
  - `src/mcp/vantage_client.py`    → `get_stock_data`, plus a name-resolution model
                                     of the module's import-time behaviour
  - `src/main.py`                  → `analyze_stock`
  - `app.py`                       → `setup_sidebar`, `unpackSidebarReturn`, `runDispatch`
  - `run_app.py`                   → `runAppTrace`

Python machine floats are modelled by `Rat`; Python's `round(x, 2)` is modelled by
the monotone rounding `round2` (round to nearest hundredth).  Dates are modelled as
integer day numbers, with the convention that a day number `d` falls on Monday..Friday
exactly when `d % 7 < 5` (matching `datetime.weekday() < 5`).  The process-global
random generator is modelled by explicit streams of drawn values.
-/

/-! ## Configuration (config.py) -/

/-- The settings object of `config.py` (class `Config`).  Field values are the
literal defaults used by `os.getenv`. -/
structure Config where
  MCP_SERVER_URL : String := "mock"
  MCP_API_KEY : String := "demo-key"
  OPENAI_API_KEY : String := ""
  DEFAULT_MODEL : String := "gpt-4"
  SUPPORTED_PERIODS : List String := ["1d", "1w", "1m", "3m", "6m", "1y", "2y", "5y"]
  DEFAULT_PERIOD : String := "1y"
  deriving Repr, DecidableEq

/-- `config.py`: each `os.getenv(name, default)` call, with `env` the process
environment. -/
def configFromEnv (env : String → Option String) : Config :=
  { MCP_SERVER_URL := (env "MCP_SERVER_URL").getD "mock"
    MCP_API_KEY := (env "MCP_API_KEY").getD "demo-key"
    OPENAI_API_KEY := (env "OPENAI_API_KEY").getD "" }

/-! ## Synthetic data generator (src/utils/helpers.py, create_sample_data) -/

/-- One trading-day record as produced by `create_sample_data` (the shape of the
`StockDataPoint` schema).  `date` is an integer day number (the `strftime` date
string is injective in it); prices are rationals modelling Python floats. -/
structure StockDataPoint where
  date : Int
  «open» : Rat
  high : Rat
  low : Rat
  close : Rat
  volume : Int
  adjusted_close : Rat
  deriving Repr, DecidableEq

/-- The random values drawn by one loop iteration of `create_sample_data`
(consumed only on weekday iterations):
`random.uniform(-2, 2)`, `random.uniform(-5, 5)`, two `random.uniform(0, 3)` draws
and `random.randint(1000000, 5000000)`. -/
structure DayDraws where
  uOpen : Rat
  uClose : Rat
  uHigh : Rat
  uLow : Rat
  vol : Int
  deriving Repr, DecidableEq

/-- The bounds guaranteed by `random.uniform` / `random.randint` at the call sites
inside the loop of `create_sample_data`. -/
def ValidDraws (d : DayDraws) : Prop :=
  -2 ≤ d.uOpen ∧ d.uOpen ≤ 2 ∧ -5 ≤ d.uClose ∧ d.uClose ≤ 5 ∧
  0 ≤ d.uHigh ∧ d.uHigh ≤ 3 ∧ 0 ≤ d.uLow ∧ d.uLow ≤ 3 ∧
  1000000 ≤ d.vol ∧ d.vol ≤ 5000000

instance (d : DayDraws) : Decidable (ValidDraws d) := by
  unfold ValidDraws; infer_instance

/-- Python's `round(x, 2)`: round to the nearest hundredth (modelled with the
monotone round-to-nearest on `Rat`). -/
def round2 (q : Rat) : Rat := ((round (q * 100) : Int) : Rat) / 100

/-- The dictionary returned by `create_sample_data`. -/
structure SampleData where
  symbol : String
  period : String
  data : List StockDataPoint
  deriving Repr, DecidableEq

/-- The body of one weekday iteration of the loop in `create_sample_data`:
`open_price = base_price + uniform(-2,2)`, `close_price = open_price + uniform(-5,5)`,
`high_price = max(open_price, close_price) + uniform(0,3)`,
`low_price = min(open_price, close_price) - uniform(0,3)`,
`volume = randint(1000000, 5000000)`, all prices rounded to 2 decimals,
`adjusted_close = round(close_price, 2)`. -/
def mkSamplePoint (basePrice : Rat) (date : Int) (d : DayDraws) : StockDataPoint :=
  let openPrice := basePrice + d.uOpen
  let closePrice := openPrice + d.uClose
  let highPrice := max openPrice closePrice + d.uHigh
  let lowPrice := min openPrice closePrice - d.uLow
  { date := date
    «open» := round2 openPrice
    high := round2 highPrice
    low := round2 lowPrice
    close := round2 closePrice
    volume := d.vol
    adjusted_close := round2 closePrice }

/-- `create_sample_data(symbol, period)` from `src/utils/helpers.py`.
`now` is the day number of `datetime.now()`; `baseDraw` is the
`random.randint(-20, 20)` draw for the base price; `draws i` are the values the
global random generator would supply on loop iteration `i`.
The loop runs `for i in range(250)`, keeps only weekdays
(`date.weekday() < 5`, i.e. `date % 7 < 5`), starting at
`current_date = datetime.now() - timedelta(days=365)`. -/
def createSampleData (symbol period : String) (now : Int) (baseDraw : Int)
    (draws : Nat → DayDraws) : SampleData :=
  let basePrice : Rat := 100 + baseDraw
  let currentDate := now - 365
  let dataPoints := (List.range 250).filterMap (fun (i : Nat) =>
    let date := currentDate + (i : Int)
    if date % 7 < 5 then some (mkSamplePoint basePrice date (draws i)) else none)
  { symbol := symbol, period := period, data := dataPoints }

/-! ### Helper lemmas about the generator -/

theorem round2_monotone : Monotone round2 := by
  intro a b hab
  unfold round2
  have h1 : a * 100 ≤ b * 100 := by
    have := mul_le_mul_of_nonneg_right hab (by norm_num : (0:Rat) ≤ 100)
    simpa using this
  have h2 : round (a * 100) ≤ round (b * 100) := by
    rw [round_eq, round_eq]
    exact Int.floor_mono (by linarith)
  have h3 : ((round (a * 100) : Int) : Rat) ≤ ((round (b * 100) : Int) : Rat) := by
    exact_mod_cast h2
  linarith

theorem length_filterMap_ite {α β : Type} (g : α → β) (c : α → Prop) [DecidablePred c]
    (l : List α) :
    (l.filterMap (fun a => if c a then some (g a) else none)).length
      = (l.filter (fun a => decide (c a))).length := by
  induction l with
  | nil => rfl
  | cons a t ih =>
    by_cases h : c a <;> simp [List.filterMap_cons, List.filter_cons, h, ih]

theorem createSampleData_mem_iff (s p : String) (now baseDraw : Int)
    (draws : Nat → DayDraws) (pt : StockDataPoint) :
    pt ∈ (createSampleData s p now baseDraw draws).data ↔
      ∃ i : Nat, i < 250 ∧ (now - 365 + i) % 7 < 5 ∧
        pt = mkSamplePoint (100 + baseDraw) (now - 365 + i) (draws i) := by
  unfold createSampleData
  simp only [List.mem_filterMap, List.mem_range]
  constructor
  · rintro ⟨i, hi, hf⟩
    by_cases h : (now - 365 + i) % 7 < 5
    · refine ⟨i, hi, h, ?_⟩
      simp only [h, if_pos] at hf
      exact (Option.some.inj hf).symm
    · simp [h] at hf
  · rintro ⟨i, hi, h, hpt⟩
    exact ⟨i, hi, by simp [h, hpt]⟩

theorem emod_add_left_emod (a b : Int) : (a + b) % 7 = (a % 7 + b) % 7 := by
  conv_lhs => rw [Int.add_emod]
  conv_rhs => rw [Int.add_emod, Int.emod_emod_of_dvd _ (dvd_refl 7)]

theorem createSampleData_length (s p : String) (now baseDraw : Int)
    (draws : Nat → DayDraws) :
    (createSampleData s p now baseDraw draws).data.length
      = ((List.range 250).filter
          (fun (i : Nat) => decide (((now - 365) % 7 + (i:Int)) % 7 < 5))).length := by
  have hrw : (createSampleData s p now baseDraw draws).data
      = (List.range 250).filterMap (fun (i : Nat) =>
          if (now - 365 + (i:Int)) % 7 < 5 then
            some (mkSamplePoint (100 + (baseDraw:Rat)) (now - 365 + (i:Int)) (draws i))
          else none) := rfl
  rw [hrw,
    length_filterMap_ite
      (fun (i : Nat) => mkSamplePoint (100 + (baseDraw:Rat)) (now - 365 + (i:Int)) (draws i))
      (fun (i : Nat) => (now - 365 + (i:Int)) % 7 < 5)]
  congr 1
  apply List.filter_congr
  intro i _
  rw [decide_eq_decide, emod_add_left_emod]

theorem mkSamplePoint_date (b : Rat) (d : Int) (dd : DayDraws) :
    (mkSamplePoint b d dd).date = d := rfl

theorem mkSamplePoint_volume (b : Rat) (d : Int) (dd : DayDraws) :
    (mkSamplePoint b d dd).volume = dd.vol := rfl

theorem mkSamplePoint_open_eq (b : Rat) (d : Int) (dd : DayDraws) :
    (mkSamplePoint b d dd).«open» = round2 (b + dd.uOpen) := rfl

theorem mkSamplePoint_close_eq (b : Rat) (d : Int) (dd : DayDraws) :
    (mkSamplePoint b d dd).close = round2 (b + dd.uOpen + dd.uClose) := rfl

theorem mkSamplePoint_high_eq (b : Rat) (d : Int) (dd : DayDraws) :
    (mkSamplePoint b d dd).high
      = round2 (max (b + dd.uOpen) (b + dd.uOpen + dd.uClose) + dd.uHigh) := rfl

theorem mkSamplePoint_low_eq (b : Rat) (d : Int) (dd : DayDraws) :
    (mkSamplePoint b d dd).low
      = round2 (min (b + dd.uOpen) (b + dd.uOpen + dd.uClose) - dd.uLow) := rfl

set_option maxRecDepth 40000 in
theorem filter_weekday_count_bounds (r : Int) (h0 : 0 ≤ r) (h7 : r < 7) :
    178 ≤ ((List.range 250).filter
            (fun (i : Nat) => decide ((r + (i:Int)) % 7 < 5))).length ∧
    ((List.range 250).filter
            (fun (i : Nat) => decide ((r + (i:Int)) % 7 < 5))).length ≤ 180 := by
  interval_cases r <;> exact ⟨by decide, by decide⟩

theorem createSampleData_length_bounds (s p : String) (now baseDraw : Int)
    (draws : Nat → DayDraws) :
    178 ≤ (createSampleData s p now baseDraw draws).data.length ∧
    (createSampleData s p now baseDraw draws).data.length ≤ 180 := by
  rw [createSampleData_length]
  exact filter_weekday_count_bounds _ (Int.emod_nonneg _ (by norm_num))
    (Int.emod_lt_of_pos _ (by norm_num))

theorem createSampleData_data_ne_nil (s p : String) (now baseDraw : Int)
    (draws : Nat → DayDraws) :
    (createSampleData s p now baseDraw draws).data ≠ [] := by
  have h := (createSampleData_length_bounds s p now baseDraw draws).1
  intro hnil
  rw [hnil] at h
  simp at h

theorem createSampleData_date_window (s p : String) (now baseDraw : Int)
    (draws : Nat → DayDraws) :
    ∀ pt ∈ (createSampleData s p now baseDraw draws).data,
      pt.date % 7 < 5 ∧ now - 365 ≤ pt.date ∧ pt.date ≤ now - 116 := by
  intro pt hpt
  rw [createSampleData_mem_iff] at hpt
  obtain ⟨i, hi, hw, rfl⟩ := hpt
  rw [mkSamplePoint_date]
  refine ⟨hw, by omega, by omega⟩

theorem createSampleData_late_point (s p : String) (now baseDraw : Int)
    (draws : Nat → DayDraws) :
    ∃ pt ∈ (createSampleData s p now baseDraw draws).data, now - 118 ≤ pt.date := by
  have h1 : ∃ i : Nat, 247 ≤ i ∧ i < 250 ∧ (now - 365 + (i:Int)) % 7 < 5 := by
    by_cases h9 : (now - 365 + (249:Int)) % 7 < 5
    · exact ⟨249, by norm_num, by norm_num, by push_cast; exact h9⟩
    · by_cases h8 : (now - 365 + (248:Int)) % 7 < 5
      · exact ⟨248, by norm_num, by norm_num, by push_cast; exact h8⟩
      · refine ⟨247, by norm_num, by norm_num, ?_⟩
        push_cast
        omega
  obtain ⟨i, h247, h250, hw⟩ := h1
  refine ⟨mkSamplePoint (100 + baseDraw) (now - 365 + i) (draws i), ?_, ?_⟩
  · rw [createSampleData_mem_iff]
    exact ⟨i, h250, hw, rfl⟩
  · rw [mkSamplePoint_date]
    omega

theorem createSampleData_head (s p : String) (now baseDraw : Int)
    (draws : Nat → DayDraws) (h : (now - 365) % 7 < 5) :
    (createSampleData s p now baseDraw draws).data.head?
      = some (mkSamplePoint (100 + (baseDraw:Rat)) (now - 365) (draws 0)) := by
  have hrw : (createSampleData s p now baseDraw draws).data
      = (List.range 250).filterMap (fun (i : Nat) =>
          if (now - 365 + (i:Int)) % 7 < 5 then
            some (mkSamplePoint (100 + (baseDraw:Rat)) (now - 365 + (i:Int)) (draws i))
          else none) := rfl
  have h0 : (now - 365 + ((0:Nat):Int)) % 7 < 5 := by push_cast; simpa using h
  have hdate : now - 365 + ((0:Nat):Int) = now - 365 := by push_cast; ring
  have hfa : (fun (i : Nat) =>
      if (now - 365 + (i:Int)) % 7 < 5 then
        some (mkSamplePoint (100 + (baseDraw:Rat)) (now - 365 + (i:Int)) (draws i))
      else none) 0 = some (mkSamplePoint (100 + (baseDraw:Rat)) (now - 365) (draws 0)) := by
    show (if (now - 365 + ((0:Nat):Int)) % 7 < 5 then
        some (mkSamplePoint (100 + (baseDraw:Rat)) (now - 365 + ((0:Nat):Int)) (draws 0))
      else none) = some (mkSamplePoint (100 + (baseDraw:Rat)) (now - 365) (draws 0))
    rw [if_pos h0, hdate]
  have hstep := @List.filterMap_cons_some Nat StockDataPoint
    (fun (i : Nat) =>
      if (now - 365 + (i:Int)) % 7 < 5 then
        some (mkSamplePoint (100 + (baseDraw:Rat)) (now - 365 + (i:Int)) (draws i))
      else none) 0 (List.map Nat.succ (List.range 249))
    (mkSamplePoint (100 + (baseDraw:Rat)) (now - 365) (draws 0)) hfa
  rw [hrw, show (250:Nat) = 249 + 1 from rfl, List.range_succ_eq_map, hstep,
    List.head?_cons]

/-! ## Claims about the synthetic generator -/

/-- C7: For every point produced by the synthetic generator (after rounding all
prices to 2 decimal places): high ≥ max(open, close), low ≤ min(open, close), and
volume is an integer in the inclusive range [1000000, 5000000]. -/
theorem create_sample_data_point_invariants (s p : String) (now baseDraw : Int)
    (draws : Nat → DayDraws) (hvalid : ∀ i, ValidDraws (draws i)) :
    ∀ pt ∈ (createSampleData s p now baseDraw draws).data,
      max pt.«open» pt.close ≤ pt.high ∧ pt.low ≤ min pt.«open» pt.close ∧
      1000000 ≤ pt.volume ∧ pt.volume ≤ 5000000 := by
  intro pt hpt
  rw [createSampleData_mem_iff] at hpt
  obtain ⟨i, hi, hw, rfl⟩ := hpt
  obtain ⟨h1, h2, h3, h4, hH0, hH3, hL0, hL3, hv1, hv2⟩ := hvalid i
  refine ⟨?_, ?_, ?_, ?_⟩
  · rw [mkSamplePoint_open_eq, mkSamplePoint_close_eq, mkSamplePoint_high_eq,
      ← round2_monotone.map_max]
    exact round2_monotone (le_add_of_nonneg_right hH0)
  · rw [mkSamplePoint_open_eq, mkSamplePoint_close_eq, mkSamplePoint_low_eq,
      ← round2_monotone.map_min]
    exact round2_monotone (sub_le_self _ hL0)
  · rw [mkSamplePoint_volume]
    exact hv1
  · rw [mkSamplePoint_volume]
    exact hv2

/-- A concrete all-zero draw packet (volume at the lower bound), used as a
concrete random stream in witnesses. -/
def d0 : DayDraws := ⟨0, 0, 0, 0, 1000000⟩

/-- All bounds hold for the concrete all-zero draw packet. -/
theorem validDraws_d0 : ValidDraws d0 := by decide

/-- The first point `create_sample_data` produces when `now = 365` (so the series
starts on a Monday, day 0), the base draw is 0 and every uniform draw is `d0`. -/
def p0 : StockDataPoint := mkSamplePoint (100 + ((0:Int):Rat)) ((365:Int) - 365) d0

theorem p0_mem : p0 ∈ (createSampleData "AMZN" "1y" 365 0 (fun _ => d0)).data := by
  apply List.mem_of_mem_head?
  rw [createSampleData_head "AMZN" "1y" 365 0 (fun _ => d0) (by norm_num)]
  rfl

/-- Witness for C7 at a concrete input. -/
theorem create_sample_data_point_invariants_witness :
    max p0.«open» p0.close ≤ p0.high ∧ p0.low ≤ min p0.«open» p0.close ∧
    1000000 ≤ p0.volume ∧ p0.volume ≤ 5000000 :=
  create_sample_data_point_invariants "AMZN" "1y" 365 0 (fun _ => d0)
    (fun _ => validDraws_d0) p0 p0_mem

/-- C6 (amended): for every symbol, period and generation time the generator
produces the weekdays among the 250 consecutive calendar days starting 365 days
before generation time: between 178 and 180 points, every date a weekday inside
the 365-day window ending at generation time, and the latest date between 118 and
116 days BEFORE generation time (not close to it). -/
theorem create_sample_data_window_characterization (s p : String) (now baseDraw : Int)
    (draws : Nat → DayDraws) :
    (∀ pt ∈ (createSampleData s p now baseDraw draws).data,
        pt.date % 7 < 5 ∧ now - 365 ≤ pt.date ∧ pt.date ≤ now - 116) ∧
    178 ≤ (createSampleData s p now baseDraw draws).data.length ∧
    (createSampleData s p now baseDraw draws).data.length ≤ 180 ∧
    ∃ pt ∈ (createSampleData s p now baseDraw draws).data, now - 118 ≤ pt.date :=
  ⟨createSampleData_date_window s p now baseDraw draws,
   (createSampleData_length_bounds s p now baseDraw draws).1,
   (createSampleData_length_bounds s p now baseDraw draws).2,
   createSampleData_late_point s p now baseDraw draws⟩

set_option maxRecDepth 40000 in
/-- C6 counterexample: at a concrete generation time (day 365, a Monday start),
the generator emits 180 points (not approximately 250) and the last date is day
249, i.e. 116 days before generation time (not close to it). -/
theorem create_sample_data_short_window_cex :
    (createSampleData "AMZN" "1y" 365 0 (fun _ => d0)).data.length = 180 ∧
    ((createSampleData "AMZN" "1y" 365 0 (fun _ => d0)).data.getLast?.map
        StockDataPoint.date) = some 249 :=
  ⟨by decide, by decide⟩

/-! ## Claims about determinism of the generator (C8) -/

/-- The process-global random generator: invocation `k` of `create_sample_data`
draws `bases k` for its base price and `days k i` on loop iteration `i`.  Python
advances the hidden Mersenne-Twister state between invocations, so different
invocations see unrelated draws. -/
structure GlobalRng where
  bases : Nat → Int
  days : Nat → Nat → DayDraws

/-- All draws of the global generator satisfy the `randint`/`uniform` bounds. -/
def ValidRng (g : GlobalRng) : Prop :=
  (∀ k, -20 ≤ g.bases k ∧ g.bases k ≤ 20) ∧ (∀ k i, ValidDraws (g.days k i))

/-- The `k`-th invocation of `create_sample_data(symbol, period)` at generation
time `now`, drawing from the global generator `g`. -/
def invokeCreateSampleData (g : GlobalRng) (k : Nat) (symbol period : String)
    (now : Int) : SampleData :=
  createSampleData symbol period now (g.bases k) (g.days k)

/-- A concrete valid global generator whose first invocation draws base offset 0
and whose second draws base offset 1. -/
def cexRng : GlobalRng :=
  ⟨fun k => if k = 0 then 0 else 1, fun _ _ => d0⟩

/-- C8 counterexample: with a valid global random generator, two invocations of
`create_sample_data` with identical arguments (symbol, period, generation time)
return different outputs, because each invocation consumes fresh draws. -/
theorem create_sample_data_rng_dependent_cex :
    ValidRng cexRng ∧
    invokeCreateSampleData cexRng 0 "AMZN" "1y" 365
      ≠ invokeCreateSampleData cexRng 1 "AMZN" "1y" 365 := by
  constructor
  · constructor
    · intro k
      by_cases hk : k = 0 <;> simp [cexRng, hk]
    · intro k i
      exact validDraws_d0
  · intro h
    have h2 : ((invokeCreateSampleData cexRng 0 "AMZN" "1y" 365).data.head?.map
          (fun q => q.«open»))
        = ((invokeCreateSampleData cexRng 1 "AMZN" "1y" 365).data.head?.map
          (fun q => q.«open»)) := by rw [h]
    rw [show invokeCreateSampleData cexRng 0 "AMZN" "1y" 365
          = createSampleData "AMZN" "1y" 365 (cexRng.bases 0) (cexRng.days 0) from rfl,
        show invokeCreateSampleData cexRng 1 "AMZN" "1y" 365
          = createSampleData "AMZN" "1y" 365 (cexRng.bases 1) (cexRng.days 1) from rfl,
        createSampleData_head _ _ _ _ _ (by norm_num),
        createSampleData_head _ _ _ _ _ (by norm_num)] at h2
    simp only [Option.map_some'] at h2
    rw [show cexRng.bases 0 = 0 from rfl, show cexRng.bases 1 = 1 from rfl,
        show cexRng.days 0 0 = d0 from rfl, show cexRng.days 1 0 = d0 from rfl] at h2
    rw [mkSamplePoint_open_eq, mkSamplePoint_open_eq] at h2
    have h3 : round2 (100 + ((0:Int):Rat) + d0.uOpen)
        ≠ round2 (100 + ((1:Int):Rat) + d0.uOpen) := by
      norm_num [round2, round_eq, d0]
    exact h3 (Option.some.inj h2)

/-- C8 (amended): the generator is a deterministic function of its arguments and
the random draws it consumes: two invocations with the same symbol, period,
generation time, base-price draw, and per-iteration draws (for the 250 iterated
days) return identical outputs. -/
theorem create_sample_data_deterministic_in_draws (s p : String) (now baseDraw : Int)
    (d1 d2 : Nat → DayDraws) (h : ∀ i, i < 250 → d1 i = d2 i) :
    createSampleData s p now baseDraw d1 = createSampleData s p now baseDraw d2 := by
  simp only [createSampleData, SampleData.mk.injEq, true_and]
  apply List.filterMap_congr
  intro i hi
  rw [List.mem_range] at hi
  rw [h i hi]

/-- A draw packet different from `d0` in every field. -/
def dBig : DayDraws := ⟨1, 1, 1, 1, 2000000⟩

/-- Witness for the amended C8: the draws beyond iteration 249 are never
consumed, so two visibly different draw streams that agree below 250 give
identical outputs. -/
theorem create_sample_data_deterministic_in_draws_witness :
    createSampleData "AMZN" "1y" 365 0 (fun _ => d0)
      = createSampleData "AMZN" "1y" 365 0 (fun i => if i < 250 then d0 else dBig) :=
  create_sample_data_deterministic_in_draws "AMZN" "1y" 365 0 _ _
    (fun i hi => by simp [hi])

/-! ## Request model (src/models/schemas.py is not among the sources) -/

/-- Modelled from the spec: the `TimePeriod` enumeration of the schemas module
(absent from the sources); its eight values are the supported period codes, the
same closed set as `SUPPORTED_PERIODS` in `config.py`. -/
inductive TimePeriod where
  | d1 | w1 | m1 | m3 | m6 | y1 | y2 | y5
  deriving Repr, DecidableEq

/-- The period-code string carried by each `TimePeriod` value. -/
def TimePeriod.code : TimePeriod → String
  | .d1 => "1d"
  | .w1 => "1w"
  | .m1 => "1m"
  | .m3 => "3m"
  | .m6 => "6m"
  | .y1 => "1y"
  | .y2 => "2y"
  | .y5 => "5y"

/-- Modelled from the spec: constructing `TimePeriod(period)` from a string —
succeeds exactly on the eight supported codes and raises `ValueError` (modelled
as `Except.error`) on anything else. -/
def TimePeriod.ofString : String → Except String TimePeriod
  | "1d" => .ok .d1
  | "1w" => .ok .w1
  | "1m" => .ok .m1
  | "3m" => .ok .m3
  | "6m" => .ok .m6
  | "1y" => .ok .y1
  | "2y" => .ok .y2
  | "5y" => .ok .y5
  | s => .error (s ++ " is not a valid TimePeriod")

/-- Modelled from the spec: the `StockRequest` record of the schemas module
(absent from the sources). -/
structure StockRequest where
  symbol : String
  period : TimePeriod
  start_date : Option String
  end_date : Option String
  deriving Repr, DecidableEq

/-! ## Market-data client (src/mcp/vantage_client.py, get_stock_data) -/

/-- One HTTP POST issued by the client: the URL and the JSON payload of
`requests.post(f"{self.base_url}/stock/data", json=payload)`. -/
structure HttpCall where
  url : String
  symbol : String
  period : String
  start_date : Option String
  end_date : Option String
  deriving Repr, DecidableEq

/-- The payload and URL of the provider call made by `get_stock_data`. -/
def stockDataCall (baseUrl : String) (req : StockRequest) : HttpCall :=
  { url := baseUrl ++ "/stock/data"
    symbol := req.symbol
    period := req.period.code
    start_date := req.start_date
    end_date := req.end_date }

/-- What the network does with the provider call: an HTTP response with a status
code and (parsed JSON) body, or a `requests.exceptions.RequestException`. -/
inductive NetOutcome where
  | response (status : Nat) (body : SampleData)
  | connectionError (msg : String)

/-- A failing provider interaction: any non-200 status, or a network error. -/
def NetOutcome.failed : NetOutcome → Prop
  | .response status _ => status ≠ 200
  | .connectionError _ => True

/-- `VantageMCPServer.get_stock_data` from `src/mcp/vantage_client.py`.
`baseUrl` is `config.MCP_SERVER_URL` (the `use_mock_data` flag of `__init__` is
`baseUrl == "mock"`); the result pairs the returned dictionary with the list of
HTTP requests issued.  Mock mode returns `create_sample_data(symbol, period)`
and issues no request; live mode posts once and, on 200, returns the parsed
body, otherwise falls back to `create_sample_data(symbol, period)`. -/
def get_stock_data (baseUrl : String) (req : StockRequest) (now baseDraw : Int)
    (draws : Nat → DayDraws) (net : NetOutcome) : SampleData × List HttpCall :=
  if baseUrl = "mock" then
    (createSampleData req.symbol req.period.code now baseDraw draws, [])
  else
    match net with
    | .response status body =>
      if status = 200 then
        (body, [stockDataCall baseUrl req])
      else
        (createSampleData req.symbol req.period.code now baseDraw draws,
         [stockDataCall baseUrl req])
    | .connectionError _ =>
      (createSampleData req.symbol req.period.code now baseDraw draws,
       [stockDataCall baseUrl req])

/-- C3: when the configured base URL is the sentinel "mock", get_stock_data
issues no HTTP request, returns the synthetic generator's output for the
request's symbol and period, and that output's data list is non-empty (any run
of 250 consecutive calendar days contains a weekday). -/
theorem get_stock_data_mock_no_http (baseUrl : String) (req : StockRequest)
    (now baseDraw : Int) (draws : Nat → DayDraws) (net : NetOutcome)
    (h : baseUrl = "mock") :
    (get_stock_data baseUrl req now baseDraw draws net).2 = [] ∧
    (get_stock_data baseUrl req now baseDraw draws net).1
      = createSampleData req.symbol req.period.code now baseDraw draws ∧
    (get_stock_data baseUrl req now baseDraw draws net).1.data ≠ [] := by
  subst h
  unfold get_stock_data
  rw [if_pos rfl]
  exact ⟨rfl, rfl, createSampleData_data_ne_nil _ _ _ _ _⟩

/-- The request used by concrete witnesses. -/
def req0 : StockRequest := ⟨"AMZN", TimePeriod.y1, none, none⟩

/-- Witness for C3 at a concrete input. -/
theorem get_stock_data_mock_no_http_witness :
    (get_stock_data "mock" req0 365 0 (fun _ => d0) (.response 500 ⟨"X", "1d", []⟩)).2
        = [] ∧
    (get_stock_data "mock" req0 365 0 (fun _ => d0) (.response 500 ⟨"X", "1d", []⟩)).1
        = createSampleData req0.symbol req0.period.code 365 0 (fun _ => d0) ∧
    (get_stock_data "mock" req0 365 0 (fun _ => d0)
        (.response 500 ⟨"X", "1d", []⟩)).1.data ≠ [] :=
  get_stock_data_mock_no_http "mock" req0 365 0 (fun _ => d0)
    (.response 500 ⟨"X", "1d", []⟩) rfl

/-- C4: in live mode, on any non-200 status or network failure, get_stock_data
returns the synthetic generator's output for the same symbol and period (after
issuing exactly the one provider call); it never surfaces a provider error. -/
theorem get_stock_data_error_fallback (baseUrl : String) (req : StockRequest)
    (now baseDraw : Int) (draws : Nat → DayDraws) (net : NetOutcome)
    (hlive : baseUrl ≠ "mock") (hfail : net.failed) :
    get_stock_data baseUrl req now baseDraw draws net
      = (createSampleData req.symbol req.period.code now baseDraw draws,
         [stockDataCall baseUrl req]) := by
  cases net with
  | response status body =>
    simp only [NetOutcome.failed] at hfail
    simp [get_stock_data, hlive, hfail]
  | connectionError msg =>
    simp [get_stock_data, hlive]

/-- Witness for C4 at a concrete input (HTTP 500 from a live provider). -/
theorem get_stock_data_error_fallback_witness :
    get_stock_data "https://vantage.example" req0 365 0 (fun _ => d0)
        (.response 500 ⟨"X", "1d", []⟩)
      = (createSampleData req0.symbol req0.period.code 365 0 (fun _ => d0),
         [stockDataCall "https://vantage.example" req0]) :=
  get_stock_data_error_fallback "https://vantage.example" req0 365 0 (fun _ => d0)
    (.response 500 ⟨"X", "1d", []⟩) (by decide) (show (500:Nat) ≠ 200 by decide)

/-! ## Analysis result model and report formatter (src/utils/helpers.py) -/

/-- Modelled from the spec and the field accesses in `format_analysis_output`:
the `StockAnalysis` record of the schemas module (absent from the sources).
The `statistics` / `trends` / `summary` dictionaries are association lists with
Python `dict.get` lookup. -/
structure StockAnalysis where
  symbol : String
  period : String
  data_points : List StockDataPoint
  statistics : List (String × Rat)
  trends : List (String × String)
  summary : List (String × Int)

/-- Python `stats.get(key, 0)` on a float-valued dictionary. -/
def statGet (m : List (String × Rat)) (k : String) : Rat := (m.lookup k).getD 0

/-- Python `trends.get(key, default)` on a string-valued dictionary. -/
def trendGet (m : List (String × String)) (k : String) (dflt : String) : String :=
  (m.lookup k).getD dflt

/-- Python `summary.get(key, 0)` on an int-valued dictionary. -/
def summaryGet (m : List (String × Int)) (k : String) : Int := (m.lookup k).getD 0

/-- Left-pad a three-digit group with zeros (for thousands grouping). -/
def pad3group (n : Nat) : String :=
  if n < 10 then "00" ++ toString n
  else if n < 100 then "0" ++ toString n
  else toString n

/-- Insert a comma after every third character of a reversed digit list. -/
def commaRev : List Char → List Char
  | [] => []
  | [a] => [a]
  | [a, b] => [a, b]
  | [a, b, c] => [a, b, c]
  | a :: b :: c :: d :: rest => a :: b :: c :: ',' :: commaRev (d :: rest)

/-- Python thousands grouping `f"{n:,}"` of a natural number. -/
def commaSeparate (n : Nat) : String :=
  String.mk ((commaRev (toString n).toList.reverse).reverse)

/-- Python fixed-point formatting `f"{x:.2f}"` (two decimals, modelled with
round-to-nearest on `Rat`). -/
def fmt2 (q : Rat) : String :=
  let n : Int := round (q * 100)
  let a := n.natAbs
  (if n < 0 then "-" else "") ++ toString (a / 100) ++ "."
    ++ (if a % 100 < 10 then "0" else "") ++ toString (a % 100)

/-- Python `f"{x:,.0f}"`: round to integer with thousands separators. -/
def fmtComma0 (q : Rat) : String :=
  let n : Int := round q
  (if n < 0 then "-" else "") ++ commaSeparate n.natAbs

/-- The `output` list of lines built by `format_analysis_output` when an
analysis result is present. -/
def reportLines (analysis : StockAnalysis) : List String :=
  let stats := analysis.statistics
  let trends := analysis.trends
  ["📊 STOCK ANALYSIS REPORT",
   "Symbol: " ++ analysis.symbol,
   "Period: " ++ analysis.period,
   "Data Points: " ++ toString (summaryGet analysis.summary "total_data_points"),
   "",
   "📈 PRICE SUMMARY",
   "Current Price: $" ++ fmt2 (statGet stats "current_price"),
   "Price Change: $" ++ fmt2 (statGet stats "price_change") ++ " ("
     ++ fmt2 (statGet stats "percent_change") ++ "%)",
   "Period High: $" ++ fmt2 (statGet stats "period_high"),
   "Period Low: $" ++ fmt2 (statGet stats "period_low"),
   "Average Volume: " ++ fmtComma0 (statGet stats "avg_volume"),
   "",
   "📊 TREND ANALYSIS",
   "Trend Direction: " ++ (trendGet trends "trend_direction" "unknown").toUpper,
   "Volatility: " ++ (trendGet trends "volatility" "unknown").toUpper,
   "",
   "🔍 DETAILED ANALYSIS",
   trendGet trends "analysis" "No detailed analysis available"]

/-- The pipeline execution state and terminal result dictionary: the mapping
with keys stock_request / raw_data / processed_data / analysis_result / error
built as `initial_state` in `src/main.py` and threaded through the graph. -/
structure ResultMap where
  stock_request : Option StockRequest := none
  raw_data : Option SampleData := none
  processed_data : Option (List StockDataPoint) := none
  analysis_result : Option StockAnalysis := none
  error : Option String := none

/-- Python truthiness of `result.get("error")`: `None` and the empty string are
falsy, every other string is truthy. -/
def truthyOptStr : Option String → Bool
  | none => false
  | some s => !s.isEmpty

/-- `format_analysis_output` from `src/utils/helpers.py`:
`if result.get("error"): return f"Error: {result[ error ]}"`, then
`if not analysis: return "No analysis result available"`, otherwise the joined
report lines. -/
def format_analysis_output (result : ResultMap) : String :=
  if truthyOptStr result.error then "Error: " ++ result.error.getD ""
  else
    match result.analysis_result with
    | none => "No analysis result available"
    | some analysis => String.intercalate "\n" (reportLines analysis)

/-- C9 counterexample: a result mapping containing only an error field whose
message is the empty string fails Python's truthiness test, so the formatter
returns the no-result message instead of "Error: ". -/
theorem format_empty_error_message_cex :
    format_analysis_output { error := some "" } = "No analysis result available" ∧
    format_analysis_output { error := some "" } ≠ "Error: " ++ "" :=
  ⟨rfl, by decide⟩

/-- C9 (amended): for every result mapping containing only an error field with a
NON-EMPTY message m, the formatter returns exactly "Error: " ++ m; for every
result mapping with neither an error nor an analysis_result it returns exactly
"No analysis result available". -/
theorem format_analysis_output_branches (m : String) (hm : m ≠ "") :
    format_analysis_output { error := some m } = "Error: " ++ m ∧
    format_analysis_output {} = "No analysis result available" := by
  constructor
  · have hie : m.isEmpty = false := by
      cases hie2 : m.isEmpty
      · rfl
      · exact absurd ((String.isEmpty_iff m).mp hie2) hm
    have ht : truthyOptStr (some m) = true := by
      simp [truthyOptStr, hie]
    simp [format_analysis_output, ht]
  · rfl

/-- Witness for the amended C9 at a concrete non-empty message. -/
theorem format_analysis_output_branches_witness :
    format_analysis_output { error := some "boom" } = "Error: " ++ "boom" ∧
    format_analysis_output {} = "No analysis result available" :=
  format_analysis_output_branches "boom" (by decide)

/-! ## Analysis orchestrator (src/main.py) -/

/-- The body of the `try` block of `StockAnalysisApp.analyze_stock`: build the
`StockRequest` with the uppercased symbol and the parsed period, build the
initial state, and run the compiled graph.  The graph itself
(`src/graph/stock_analysis_graph.py`) is not among the sources and is modelled
from the spec as an arbitrary function from initial state to terminal state
that may raise (`Except.error`). -/
def run_analysis_pipeline (graph : ResultMap → Except String ResultMap)
    (symbol period : String) (start_date end_date : Option String) :
    Except String ResultMap :=
  (TimePeriod.ofString period).bind (fun tp =>
    graph { stock_request := some ⟨symbol.toUpper, tp, start_date, end_date⟩ })

/-- `StockAnalysisApp.analyze_stock` from `src/main.py`: the try/except around
request construction and `self.graph.ainvoke(initial_state)`; any exception is
converted to `{"error": f"Analysis failed: {str(e)}"}`. -/
def analyze_stock (graph : ResultMap → Except String ResultMap)
    (symbol period : String) (start_date end_date : Option String) : ResultMap :=
  match run_analysis_pipeline graph symbol period start_date end_date with
  | .ok result => result
  | .error e => { error := some ("Analysis failed: " ++ e) }

/-- C2: the orchestrator's analyze operation never propagates an exception: for
every pipeline, whenever request construction or pipeline execution raises with
message e, it returns the mapping whose error field equals "Analysis failed: e";
otherwise it returns the pipeline's terminal state mapping unchanged. -/
theorem analyze_stock_catches (graph : ResultMap → Except String ResultMap)
    (symbol period : String) (start_date end_date : Option String) :
    (∀ e, run_analysis_pipeline graph symbol period start_date end_date = .error e →
        analyze_stock graph symbol period start_date end_date
          = { error := some ("Analysis failed: " ++ e) }) ∧
    (∀ st, run_analysis_pipeline graph symbol period start_date end_date = .ok st →
        analyze_stock graph symbol period start_date end_date = st) := by
  constructor
  · intro e he
    unfold analyze_stock
    rw [he]
  · intro st hst
    unfold analyze_stock
    rw [hst]

/-- Witness for C2: a pipeline that raises "boom" is converted to the
structured error mapping. -/
theorem analyze_stock_catches_witness :
    analyze_stock (fun _ => .error "boom") "amzn" "1y" none none
      = { error := some ("Analysis failed: " ++ "boom") } :=
  (analyze_stock_catches (fun _ => .error "boom") "amzn" "1y" none none).1 "boom" rfl

/-! ## Dashboard sidebar and run dispatch (app.py) -/

/-- The value returned by `StreamlitStockApp.setup_sidebar`: either the 7-tuple
`(symbol, period, start_date, end_date, show_technical, show_volume,
detailed_analysis)` of the normal path, or the 4-tuple
`(None, None, None, None)` of the date-validation early return. -/
inductive SidebarReturn where
  | config (symbol period : String) (start_date end_date : Option Int)
      (show_technical show_volume detailed_analysis : Bool)
  | earlyReturn4

/-- The number of components of the returned Python tuple. -/
def tupleArity : SidebarReturn → Nat
  | .config .. => 7
  | .earlyReturn4 => 4

/-- The sidebar interaction result: the returned tuple plus the error messages
shown with `st.sidebar.error`. -/
structure SidebarOutcome where
  ret : SidebarReturn
  sidebar_errors : List String

/-- `StreamlitStockApp.setup_sidebar` from `app.py` (the control flow relevant
to date validation): the symbol is uppercased; when the custom-date checkbox is
on and `start_date >= end_date`, the sidebar shows
"Start date must be before end date" and returns `None, None, None, None`;
otherwise the full 7-tuple is returned (dates only when the checkbox is on). -/
def setup_sidebar (symbolInput periodCode : String) (use_custom_dates : Bool)
    (start_date end_date : Int)
    (show_technical show_volume detailed_analysis : Bool) : SidebarOutcome :=
  let symbol := symbolInput.toUpper
  if use_custom_dates ∧ start_date ≥ end_date then
    { ret := .earlyReturn4
      sidebar_errors := ["Start date must be before end date"] }
  else
    { ret := .config symbol periodCode
        (if use_custom_dates then some start_date else none)
        (if use_custom_dates then some end_date else none)
        show_technical show_volume detailed_analysis
      sidebar_errors := [] }

/-- The 7 local variables `run` binds from the sidebar tuple. -/
structure SidebarConfig where
  symbol : String
  period : String
  start_date : Option Int
  end_date : Option Int
  show_technical : Bool
  show_volume : Bool
  detailed_analysis : Bool

/-- The tuple unpacking in `run`:
`(symbol, period, start_date, end_date, show_technical, show_volume,
detailed_analysis) = self.setup_sidebar()` — unpacking a 4-tuple into 7 names
raises `ValueError`. -/
def unpackSidebarReturn : SidebarReturn → Except String SidebarConfig
  | .config s p sd ed a b c => .ok ⟨s, p, sd, ed, a, b, c⟩
  | .earlyReturn4 => .error "ValueError: not enough values to unpack (expected 7, got 4)"

/-- `StreamlitStockApp.run` up to the analysis trigger: unpack the sidebar
tuple, then invoke the orchestrator exactly when the button is pressed and the
symbol is non-empty.  An unpacking `ValueError` aborts the script run before
the button handler.  The `Bool` result records whether analyze was invoked. -/
def runDispatch (symbolInput periodCode : String) (use_custom_dates : Bool)
    (start_date end_date : Int)
    (show_technical show_volume detailed_analysis : Bool)
    (buttonPressed : Bool) : Except String Bool :=
  (unpackSidebarReturn (setup_sidebar symbolInput periodCode use_custom_dates
      start_date end_date show_technical show_volume detailed_analysis).ret).map
    (fun cfg => buttonPressed && !cfg.symbol.isEmpty)

/-- C5 (code-defect evidence): with a custom date range where start = end, the
sidebar shows the validation error and analyze is never invoked, but the early
return is a 4-tuple while the caller unpacks 7 names, so the run raises
ValueError instead of proceeding without fault. -/
theorem run_unpack_mismatch_on_equal_dates :
    (setup_sidebar "AMZN" "1y" true 100 100 true true true).sidebar_errors
        = ["Start date must be before end date"] ∧
    tupleArity (setup_sidebar "AMZN" "1y" true 100 100 true true true).ret = 4 ∧
    runDispatch "AMZN" "1y" true 100 100 true true true true
        = .error "ValueError: not enough values to unpack (expected 7, got 4)" :=
  ⟨rfl, rfl, rfl⟩

/-! ## Launcher (run_app.py) -/

/-- The value `subprocess.run` returns after waiting for the child. -/
structure CompletedProcess where
  returncode : Int

/-- `subprocess.run(cmd)`: runs `cmd`, waits for it, and returns its exit
status; without `check=True` it never raises on a non-zero status. -/
def subprocessRun (_cmd : List String) (childExit : Int) : CompletedProcess :=
  ⟨childExit⟩

/-- The command `main()` launches: `[sys.executable, "-m", "streamlit", "run", "app.py"]`. -/
def launcherCommand (pythonExecutable : String) : List String :=
  [pythonExecutable, "-m", "streamlit", "run", "app.py"]

/-- What a whole run of `run_app.py` did: the spawned command and the exit
status of the launcher process itself. -/
structure LauncherRun where
  command : List String
  launcherExit : Int

/-- `run_app.py`: `main()` calls `subprocess.run([...])`, discards the returned
`CompletedProcess`, and returns `None`; the script then completes normally, so
the interpreter exits with status 0 whatever the child's status was. -/
def runAppTrace (pythonExecutable : String) (childExit : Int) : LauncherRun :=
  let completed := subprocessRun (launcherCommand pythonExecutable) childExit
  let _ := completed
  { command := launcherCommand pythonExecutable, launcherExit := 0 }

/-- C10 counterexample: when the dashboard subprocess exits with status 1, the
launcher exits with status 0, not 1. -/
theorem launcher_exit_not_propagated_cex :
    (runAppTrace "python3" 1).launcherExit = 0 ∧
    (runAppTrace "python3" 1).launcherExit ≠ 1 :=
  ⟨rfl, by decide⟩

/-- C10 (amended): the launcher starts the dashboard as a subprocess of the
current interpreter and waits for it, but for every exit status that subprocess
terminates with, the launcher itself exits with status 0 — the child's status
is ignored, never propagated. -/
theorem launcher_always_exits_zero (pythonExecutable : String) (childExit : Int) :
    (runAppTrace pythonExecutable childExit).command
        = [pythonExecutable, "-m", "streamlit", "run", "app.py"] ∧
    (runAppTrace pythonExecutable childExit).launcherExit = 0 :=
  ⟨rfl, rfl⟩

/-! ## Import-time name resolution of the client module (C1) -/

/-- Line 4 of `src/mcp/vantage_client.py`:
`from typing import Dict, Any, Optional` — `List` is not imported. -/
def typingImports : List String := ["Dict", "Any", "Optional"]

/-- All module-level names bound in `src/mcp/vantage_client.py` by its import
statements, i.e. the global scope in effect when the class body executes. -/
def vantageClientModuleScope : List String :=
  ["requests", "json", "asyncio", "StockRequest", "StockDataPoint", "config",
   "create_sample_data"] ++ typingImports

/-- The Python builtins relevant to the module (note: `list` is a builtin,
capitalised `List` is not). -/
def relevantPythonBuiltins : List String :=
  ["str", "int", "float", "bool", "dict", "list", "max", "min", "sum", "len",
   "round", "print"]

/-- Name lookup during execution of the module body / class body. -/
def resolvesInVantageClient (n : String) : Bool :=
  vantageClientModuleScope.contains n || relevantPythonBuiltins.contains n

/-- The names evaluated, in order, by the annotations of
`async def get_technical_indicators(self, symbol: str, data: List[StockDataPoint])
-> Dict[str, Any]`.  Python evaluates annotation expressions when the `def`
statement executes (there is no `from __future__ import annotations` in the
module), and evaluating `List[...]` looks up the name `List` first. -/
def getTechnicalIndicatorsAnnotationNames : List String :=
  ["str", "List", "StockDataPoint", "Dict", "Any"]

/-- The first annotation name whose lookup raises `NameError`, if any. -/
def firstUnresolvedAnnotationName : Option String :=
  getTechnicalIndicatorsAnnotationNames.find? (fun n => !resolvesInVantageClient n)

/-- Whether executing the `VantageMCPServer` class body succeeds. -/
def vantageClientClassDefOk : Bool :=
  getTechnicalIndicatorsAnnotationNames.all resolvesInVantageClient

/-- Whether `import` of the client module succeeds: the module body executes
the class definition (and then `vantage_client = VantageMCPServer()`). -/
def vantageClientImportOk : Bool := vantageClientClassDefOk

/-- Whether `get_stock_data` can ever be called: it is a method of the class
whose definition fails, in a module whose import fails. -/
def getStockDataCallable : Bool := vantageClientImportOk

/-- Whether `get_technical_indicators` can ever be called. -/
def getTechnicalIndicatorsCallable : Bool := vantageClientImportOk

/-- C1: evaluating the client module fails: `List` is used in the annotation of
get_technical_indicators but never imported (only Dict, Any, Optional are), so
the class definition raises NameError, every import of the module fails, and
neither get_stock_data nor get_technical_indicators is ever callable. -/
theorem vantage_client_import_name_error :
    firstUnresolvedAnnotationName = some "List" ∧
    resolvesInVantageClient "List" = false ∧
    vantageClientClassDefOk = false ∧
    vantageClientImportOk = false ∧
    getStockDataCallable = false ∧
    getTechnicalIndicatorsCallable = false := by
  refine ⟨by decide, by decide, by decide, by decide, by decide, by decide⟩
